import Mathlib

/-!
Shallow embedding of the `Tracking` package (config.py, events.py, display.py,
decorators.py): a typed event model, a process-wide session registry, CLI
rendering, and instrumentation wrappers, together with proofs of the claimed
properties.

Modelling conventions:
* Python strings are Lean `String`s; Python `None`-able fields are `Option`s.
* `uuid.uuid4()` is modelled by an injective function `uuid` of a freshness
  counter carried in the registry state.
* `datetime.now()` is modelled by a discrete clock carried in the state;
  durations measured with `time.perf_counter` are environment inputs.
* Floating-point amounts (costs) are modelled as exact rationals.
* `print` output is modelled by a trace of printed lines; where a claim is
  about print failure, the print effect is an explicit fallible operation.
-/

namespace Tracking

/-! ## config.py -/

/-- Embedding of `TrackingMode` from config.py. -/
inductive TrackingMode
  | cli
  | file
  | webhook
  | disabled
deriving DecidableEq

/-- Embedding of `DisplayLevel` from config.py. -/
inductive DisplayLevel
  | quiet
  | normal
  | verbose
deriving DecidableEq

/-- Embedding of `TrackingConfig` from config.py, with the same field defaults. -/
structure TrackingConfig where
  mode : TrackingMode := .cli
  display_level : DisplayLevel := .normal
  show_parameters : Bool := true
  show_execution_time : Bool := true
  show_timestamps : Bool := true
  webhook_url : Option String := none
  log_file_path : Option String := none
  use_colors : Bool := true
  session_color : String := "cyan"
  function_color : String := "green"
  llm_color : String := "blue"
  api_color : String := "yellow"
  error_color : String := "red"
deriving DecidableEq

/-- The module-level `tracking_config = TrackingConfig()` instance. -/
def tracking_config : TrackingConfig := {}

/-- Embedding of `is_tracking_enabled` from config.py: the mode is not DISABLED. -/
def is_tracking_enabled (cfg : TrackingConfig) : Bool :=
  cfg.mode ≠ TrackingMode.disabled

/-! ## events.py: the event model -/

/-- Embedding of `EventType` from events.py. -/
inductive EventType
  | session_start
  | session_end
  | function_call
  | llm_call
  | api_call
  | error
deriving DecidableEq

/-- Fields specific to `SessionEvent`. -/
structure SessionData where
  user_id : Option String := none
  agent_version : Option String := none
deriving DecidableEq

/-- Fields specific to `FunctionCallEvent`.  Durations are on the discrete
clock; `parameters` is the ordered name-to-repr mapping. -/
structure FunctionCallData where
  function_name : String := ""
  parameters : List (String × String) := []
  execution_time_ms : Option Nat := none
  success : Bool := true
  return_value : Option String := none
  error_message : Option String := none
deriving DecidableEq

/-- Fields specific to `LLMCallEvent`. -/
structure LLMCallData where
  model_name : String := ""
  prompt_length : Nat := 0
  response_length : Nat := 0
  tokens_used : Option Nat := none
  estimated_cost : Option ℚ := none
  response_time_ms : Option Nat := none
  success : Bool := true
  user_input : Option String := none
  llm_response : Option String := none
  error_message : Option String := none
deriving DecidableEq

/-- Fields specific to `APICallEvent`. -/
structure APICallData where
  api_name : String := ""
  endpoint : String := ""
  method : String := "GET"
  response_time_ms : Option Nat := none
  status_code : Option Nat := none
  success : Bool := true
  request_size : Option Nat := none
  response_size : Option Nat := none
  error_message : Option String := none
deriving DecidableEq

/-- Fields specific to `ErrorEvent`. -/
structure ErrorData where
  error_type : String := ""
  error_message : String := ""
  stack_trace : Option String := none
  function_name : Option String := none
  context : List (String × String) := []
deriving DecidableEq

/-- The variant payload of an event: which `BaseEvent` subclass it is
(Python dispatches on `isinstance`, separately from `event_type`). -/
inductive EventData
  | session (d : SessionData)
  | functionCall (d : FunctionCallData)
  | llmCall (d : LLMCallData)
  | apiCall (d : APICallData)
  | errorEvent (d : ErrorData)
deriving DecidableEq

/-- Embedding of `BaseEvent`: common fields plus the subclass payload. -/
structure Event where
  event_id : String
  session_id : String := ""
  timestamp : Nat
  event_type : EventType
  data : EventData
deriving DecidableEq

/-! ## events.py: the session registry state -/

/-- Models `str(uuid.uuid4())` as an injective function of the uuid-supply
counter.  Every generated identifier is a nonempty string, hence
Python-truthy, and distinct counters give distinct identifiers. -/
def uuid (n : Nat) : String :=
  ⟨List.replicate (n + 1) 'u'⟩

/-- The process-wide mutable state of events.py: `current_session_id` and
`session_events`, plus the uuid supply counter, the clock, and the trace of
console lines printed so far. -/
structure RegistryState where
  current_session_id : String := ""
  session_events : List Event := []
  counter : Nat := 0
  clock : Nat := 0
  output : List String := []
deriving DecidableEq

/-- The state at module load: no active session, empty buffer. -/
def initState : RegistryState := {}

/-- Models Python dataclass construction of a `BaseEvent` subclass:
`event_id` is drawn from the uuid supply (`default_factory` uuid4) and
`timestamp` from the clock (`default_factory` datetime.now). -/
def mkEvent (s : RegistryState) (ty : EventType) (d : EventData) :
    Event × RegistryState :=
  ({ event_id := uuid s.counter, session_id := "", timestamp := s.clock,
     event_type := ty, data := d },
   { s with counter := s.counter + 1, clock := s.clock + 1 })

/-- Embedding of `start_session` from events.py: draw a fresh session id, reset the
buffer, append a SessionStart event, return the id. -/
def start_session (user_id : Option String) (s : RegistryState) :
    String × RegistryState :=
  let sid := uuid s.counter
  let s1 : RegistryState :=
    { s with counter := s.counter + 1, current_session_id := sid,
             session_events := [] }
  let p := mkEvent s1 .session_start (.session { user_id := user_id })
  let ev := { p.1 with session_id := sid }
  (sid, { p.2 with session_events := p.2.session_events ++ [ev] })

/-- Embedding of `end_session` from events.py: append a SessionEnd event stamped with the
(possibly empty) current session id, clear the active marker, return the id
that was active.  The buffer is retained. -/
def end_session (s : RegistryState) : String × RegistryState :=
  let p := mkEvent s .session_end (.session {})
  let ev := { p.1 with session_id := s.current_session_id }
  let ended := s.current_session_id
  (ended,
   { p.2 with session_events := p.2.session_events ++ [ev],
              current_session_id := "" })

/-! ## display.py: the CLI renderer

The renderer is embedded as a pure function from an event and the current
configuration to the list of lines it prints (each `print` call contributes
one line). -/

namespace Colors

/-- ANSI escape codes from the `Colors` class in display.py. -/
def RESET : String := "\x1b[0m"

def RED : String := "\x1b[31m"

def GREEN : String := "\x1b[32m"

def YELLOW : String := "\x1b[33m"

def BLUE : String := "\x1b[34m"

def MAGENTA : String := "\x1b[35m"

def CYAN : String := "\x1b[36m"

def WHITE : String := "\x1b[37m"

end Colors

/-- The `color_map` lookup inside `colorize`, defaulting to RESET. -/
def colorMap (color : String) : String :=
  if color.toLower = "red" then Colors.RED
  else if color.toLower = "green" then Colors.GREEN
  else if color.toLower = "yellow" then Colors.YELLOW
  else if color.toLower = "blue" then Colors.BLUE
  else if color.toLower = "magenta" then Colors.MAGENTA
  else if color.toLower = "cyan" then Colors.CYAN
  else if color.toLower = "white" then Colors.WHITE
  else Colors.RESET

/-- Embedding of `colorize` from display.py. -/
def colorize (cfg : TrackingConfig) (text color : String) : String :=
  if ¬ cfg.use_colors then text
  else colorMap color ++ text ++ Colors.RESET

/-- Models `timestamp.strftime` on the discrete clock. -/
def strftimeHMS (t : Nat) : String := toString t

/-- Embedding of `format_timestamp` from display.py. -/
def format_timestamp (cfg : TrackingConfig) (t : Nat) : String :=
  if cfg.show_timestamps then "[" ++ strftimeHMS t ++ "] " else ""

/-- Embedding of `format_execution_time` from display.py. -/
def format_execution_time (cfg : TrackingConfig) (time_ms : Option Nat) :
    String :=
  if ¬ cfg.show_execution_time ∨ time_ms = none then ""
  else " (" ++ toString (time_ms.getD 0) ++ ".0ms)"

/-- Python truthiness of an `Optional[str]` field: `None` and the empty
string are falsy. -/
def optStrTruthy : Option String → Bool
  | some m => m ≠ ""
  | none => false

/-- Python truthiness of an `Optional` numeric field: `None` and zero are
falsy. -/
def optNatTruthy : Option Nat → Bool
  | some n => n ≠ 0
  | none => false

/-- Python truthiness of the `Optional` cost field. -/
def optRatTruthy : Option ℚ → Bool
  | some q => q ≠ 0
  | none => false

/-- Models Python `repr` applied to a value that is already a `str`
(as in the `Params:` suffix): quote it. -/
def pyStrRepr (s : String) : String := "'" ++ s ++ "'"

/-- Embedding of `display_session_event` from display.py. -/
def display_session_event (cfg : TrackingConfig) (e : Event) : List String :=
  let timestamp := format_timestamp cfg e.timestamp
  if e.event_type = .session_start then
    let message := timestamp ++ "🚀 Session Started"
    let message :=
      if cfg.display_level = .verbose then
        message ++ " | ID: " ++ e.session_id.take 8
      else message
    [colorize cfg message cfg.session_color]
  else if e.event_type = .session_end then
    [colorize cfg (timestamp ++ "🏁 Session Ended") cfg.session_color]
  else []

/-- Embedding of `display_function_event` from display.py. -/
def display_function_event (cfg : TrackingConfig) (e : Event)
    (d : FunctionCallData) : List String :=
  if cfg.display_level = .quiet then []
  else
    let timestamp := format_timestamp cfg e.timestamp
    let exec_time := format_execution_time cfg d.execution_time_ms
    let status := if d.success then "✅" else "❌"
    let message := timestamp ++ status ++ " " ++ d.function_name ++ "()" ++ exec_time
    let message :=
      if cfg.show_parameters ∧ cfg.display_level = .verbose ∧ d.parameters ≠ [] then
        message ++ " | Params: " ++ String.intercalate ", "
          (d.parameters.map fun p => p.1 ++ "=" ++ (pyStrRepr p.2).take 50)
      else message
    let message :=
      if ¬ d.success ∧ optStrTruthy d.error_message then
        message ++ " | Error: " ++ d.error_message.getD ""
      else message
    let color := if d.success then cfg.function_color else cfg.error_color
    [colorize cfg message color]

/-- Embedding of `display_llm_event` from display.py. -/
def display_llm_event (cfg : TrackingConfig) (e : Event) (d : LLMCallData) :
    List String :=
  if cfg.display_level = .quiet then []
  else
    let timestamp := format_timestamp cfg e.timestamp
    let exec_time := format_execution_time cfg d.response_time_ms
    let status := if d.success then "🤖" else "❌"
    let message := timestamp ++ status ++ " LLM Call (" ++ d.model_name ++ ")" ++ exec_time
    let message :=
      if optNatTruthy d.tokens_used then
        message ++ " | Tokens: " ++ toString (d.tokens_used.getD 0)
      else message
    let message :=
      if optRatTruthy d.estimated_cost then
        message ++ " | Cost: $" ++ toString (d.estimated_cost.getD 0)
      else message
    let message :=
      if cfg.display_level = .verbose ∧ optStrTruthy d.user_input then
        let ui := d.user_input.getD ""
        let user_input_preview := if ui.length > 100 then ui.take 100 ++ "..." else ui
        message ++ " | Input: '" ++ user_input_preview ++ "'"
      else message
    let message :=
      if ¬ d.success ∧ optStrTruthy d.error_message then
        message ++ " | Error: " ++ d.error_message.getD ""
      else message
    let color := if d.success then cfg.llm_color else cfg.error_color
    [colorize cfg message color]

/-- Embedding of `display_api_event` from display.py. -/
def display_api_event (cfg : TrackingConfig) (e : Event) (d : APICallData) :
    List String :=
  if cfg.display_level = .quiet then []
  else
    let timestamp := format_timestamp cfg e.timestamp
    let exec_time := format_execution_time cfg d.response_time_ms
    let status := if d.success then "🌐" else "❌"
    let message := timestamp ++ status ++ " API Call (" ++ d.api_name ++ ")" ++ exec_time
    let message :=
      if optNatTruthy d.status_code then
        message ++ " | " ++ d.method ++ " " ++ toString (d.status_code.getD 0)
      else message
    let message :=
      if cfg.display_level = .verbose ∧ d.endpoint ≠ "" then
        message ++ " | " ++ d.endpoint
      else message
    let message :=
      if ¬ d.success ∧ optStrTruthy d.error_message then
        message ++ " | Error: " ++ d.error_message.getD ""
      else message
    let color := if d.success then cfg.api_color else cfg.error_color
    [colorize cfg message color]

/-- Embedding of `display_error_event` from display.py: always prints its message line,
plus the stack trace at verbose level. -/
def display_error_event (cfg : TrackingConfig) (e : Event) (d : ErrorData) :
    List String :=
  let timestamp := format_timestamp cfg e.timestamp
  let message := timestamp ++ "💥 ERROR: " ++ d.error_type
  let message :=
    if optStrTruthy d.function_name then
      message ++ " in " ++ d.function_name.getD "" ++ "()"
    else message
  let message := message ++ " | " ++ d.error_message
  let first := colorize cfg message cfg.error_color
  if cfg.display_level = .verbose ∧ optStrTruthy d.stack_trace then
    [first, colorize cfg ("Stack trace: " ++ d.stack_trace.getD "") cfg.error_color]
  else [first]

/-- Embedding of `display_event` from display.py: globally suppressed unless tracking is
enabled and the mode is CLI, then dispatches on the event's subclass. -/
def display_event (cfg : TrackingConfig) (event : Event) : List String :=
  if ¬ is_tracking_enabled cfg ∨ cfg.mode ≠ TrackingMode.cli then []
  else
    match event.data with
    | .session _ => display_session_event cfg event
    | .functionCall d => display_function_event cfg event d
    | .llmCall d => display_llm_event cfg event d
    | .apiCall d => display_api_event cfg event d
    | .errorEvent d => display_error_event cfg event d

/-! ## events.py: emit and queries -/

/-- Embedding of `emit_event` from events.py: auto-start a session when none is active
(Python tests `if not current_session_id`, i.e. the empty string), stamp the
event with the active session id, append it to the buffer, and forward it to
`display_event`.  The print effect of the display is recorded on the output
trace. -/
def emit_event (cfg : TrackingConfig) (event : Event) (s : RegistryState) :
    RegistryState :=
  let s1 := if s.current_session_id = "" then (start_session none s).2 else s
  let ev := { event with session_id := s1.current_session_id }
  { s1 with session_events := s1.session_events ++ [ev],
            output := s1.output ++ display_event cfg ev }

/-- An error raised by a console `print` call (e.g. a broken pipe). -/
structure PrintFailure where
  msg : String := ""
deriving DecidableEq

/-- Variant of `emit_event` with the print effect of `display_event` made explicit as
the fallible operation `pr`.  The source contains no exception handler
around the display call, so the outcome of printing the rendered lines is
returned to the caller of emit unchanged. -/
def emit_event_fallible (cfg : TrackingConfig)
    (pr : String → Except PrintFailure Unit) (event : Event)
    (s : RegistryState) : RegistryState × Except PrintFailure Unit :=
  let s1 := if s.current_session_id = "" then (start_session none s).2 else s
  let ev := { event with session_id := s1.current_session_id }
  ({ s1 with session_events := s1.session_events ++ [ev] },
   (display_event cfg ev).forM pr)

/-- Embedding of `get_session_events` from events.py (the defensive `.copy()` is the
identity in a pure model). -/
def get_session_events (s : RegistryState) : List Event :=
  s.session_events

/-- The summary dictionary built by `get_session_summary`. -/
structure SessionSummary where
  session_id : String
  total_time_seconds : Option Int
  function_calls_count : Nat
  llm_calls_count : Nat
  api_calls_count : Nat
  errors_count : Nat
  total_estimated_cost : ℚ
  session_start : Option Nat
  session_end : Option Nat
deriving DecidableEq

/-- The `estimated_cost` attribute of an event, when it is an LLMCallEvent. -/
def Event.estimatedCost? (e : Event) : Option ℚ :=
  match e.data with
  | .llmCall d => d.estimated_cost
  | _ => none

/-- Embedding of `get_session_summary` from events.py: `{}` (here `none`) on an empty
buffer, otherwise single-pass classification by `event_type` with
per-kind counts, the cost sum `sum(e.estimated_cost or 0)` over LLM
events, and the first Start/End timestamps. -/
def get_session_summary (s : RegistryState) : Option SessionSummary :=
  if s.session_events = [] then none
  else
    let function_calls := s.session_events.filter fun e => e.event_type = .function_call
    let llm_calls := s.session_events.filter fun e => e.event_type = .llm_call
    let api_calls := s.session_events.filter fun e => e.event_type = .api_call
    let errors := s.session_events.filter fun e => e.event_type = .error
    let session_start := s.session_events.find? fun e => e.event_type = .session_start
    let session_end := s.session_events.find? fun e => e.event_type = .session_end
    let total_time : Option Int :=
      match session_start, session_end with
      | some st, some en => some ((en.timestamp : Int) - (st.timestamp : Int))
      | _, _ => none
    let total_cost : ℚ := (llm_calls.map fun e => (e.estimatedCost?).getD 0).sum
    some { session_id := s.current_session_id
         , total_time_seconds := total_time
         , function_calls_count := function_calls.length
         , llm_calls_count := llm_calls.length
         , api_calls_count := api_calls.length
         , errors_count := errors.length
         , total_estimated_cost := total_cost
         , session_start := session_start.map Event.timestamp
         , session_end := session_end.map Event.timestamp }

/-! ## decorators.py: instrumentation wrappers

Python runtime values passed through the wrappers are modelled by `PyVal`;
raised exceptions by `PyExc`; a fallible call by `Except PyExc`. -/

/-- A model of the Python values handled by the generic wrapper. -/
inductive PyVal
  | none
  | bool (b : Bool)
  | int (n : Int)
  | str (s : String)
  | list (xs : List PyVal)

/-- Python truthiness: `None`, `False`, zero, the empty string and the
empty collection are falsy; everything else is truthy. -/
def pyTruthy : PyVal → Bool
  | .none => false
  | .bool b => b
  | .int n => n ≠ 0
  | .str s => s ≠ ""
  | .list xs => ¬ xs.isEmpty

/-- Models Python `repr` on the modelled values. -/
def pyRepr : PyVal → String
  | .none => "None"
  | .bool b => if b then "True" else "False"
  | .int n => toString n
  | .str s => "'" ++ s ++ "'"
  | .list xs => "[" ++ String.intercalate ", "
      (xs.attach.map fun x => pyRepr x.1) ++ "]"
decreasing_by
  have := List.sizeOf_lt_of_mem x.2
  simp only [PyVal.list.sizeOf_spec]
  omega

/-- A raised Python exception: its type name and its `str(...)` form. -/
structure PyExc where
  exc_type : String := "Exception"
  msg : String := ""
deriving DecidableEq

/-- Models `str(e)` on an exception. -/
def PyExc.str (e : PyExc) : String := e.msg

/-- Embedding of `track_function` from decorators.py.  The wrapped callable `func`
receives the positional and keyword arguments and either returns a value or
raises; `elapsed_ms` is the wall-clock duration measured around the call
(an environment input).  When tracking is disabled the callable is invoked
directly; otherwise the call's outcome is captured, a FunctionCallEvent is
built in the `finally` block (skipping the first positional argument in
`params_to_log`) and emitted, and the original outcome is returned
(re-raising the original exception). -/
def track_function (cfg : TrackingConfig) (func_name : String)
    (func : List PyVal → List (String × PyVal) → Except PyExc PyVal)
    (args : List PyVal) (kwargs : List (String × PyVal)) (elapsed_ms : Nat)
    (s : RegistryState) : Except PyExc PyVal × RegistryState :=
  if ¬ is_tracking_enabled cfg then (func args kwargs, s)
  else
    let result := func args kwargs
    let error : Option PyExc :=
      match result with
      | .error e => some e
      | .ok _ => none
    let return_value : PyVal :=
      match result with
      | .ok v => v
      | .error _ => PyVal.none
    let params_to_log : List (String × String) :=
      ((args.enum.filter fun p => p.1 > 0).map
        fun p => ("arg_" ++ toString p.1, pyRepr p.2))
      ++ kwargs.map fun p => (p.1, pyRepr p.2)
    let p := mkEvent s .function_call (.functionCall
      { function_name := func_name
      , parameters := params_to_log
      , execution_time_ms := some elapsed_ms
      , success := error.isNone
      , return_value := if pyTruthy return_value then some (pyRepr return_value) else none
      , error_message := error.map PyExc.str })
    (result, emit_event cfg p.1 p.2)

/-- The model handle inspected by `track_llm`: `getattr(model_obj,
'model_name', 'unknown_model')`. -/
structure ModelHandle where
  model_name : Option String := none
deriving DecidableEq

/-- A response object with a `.text` attribute. -/
structure LLMResponse where
  text : String := ""
deriving DecidableEq

/-- Python `str.split()` with no separator: split on runs of whitespace,
discarding empty pieces. -/
def pySplitAux : List Char → List Char → List (List Char)
  | [], [] => []
  | [], cur => [cur.reverse]
  | c :: cs, cur =>
    if c.isWhitespace then
      if cur = [] then pySplitAux cs []
      else cur.reverse :: pySplitAux cs []
    else pySplitAux cs (c :: cur)

/-- Python `s.split()` as a list of words. -/
def pySplit (s : String) : List String :=
  (pySplitAux s.data []).map fun l => ⟨l⟩

/-- The fixed per-thousand-token rate used by `track_llm`
(the literal `0.0001` for the Gemini Flash model, as an exact rational). -/
def GEMINI_FLASH_RATE : ℚ := 1 / 10000

/-- Embedding of `track_llm` from decorators.py.  The extraction of `prompt`,
`model_obj` and `user_input` from `args`/`kwargs` is modelled by passing the
extracted values directly; `func` performs the wrapped LLM call.  When
tracking is disabled the callable is invoked directly; otherwise token
counts are approximated by whitespace-splitting, the cost is
`(total_tokens / 1000) * 0.0001`, an LLMCallEvent is built in the `finally`
block and emitted, and the original outcome is returned. -/
def track_llm (cfg : TrackingConfig)
    (func : Unit → Except PyExc LLMResponse)
    (model_obj : Option ModelHandle) (prompt : Option String)
    (user_input : Option String) (elapsed_ms : Nat) (s : RegistryState) :
    Except PyExc LLMResponse × RegistryState :=
  if ¬ is_tracking_enabled cfg then (func (), s)
  else
    let model_name : String :=
      match model_obj with
      | some m => m.model_name.getD "unknown_model"
      | none => "unknown_model"
    let result := func ()
    let error : Option PyExc :=
      match result with
      | .error e => some e
      | .ok _ => none
    let response : Option LLMResponse :=
      match result with
      | .ok r => some r
      | .error _ => none
    let llm_response_text : String :=
      match response with
      | some r => r.text
      | none => ""
    let prompt_tokens : Nat :=
      if optStrTruthy prompt then (pySplit (prompt.getD "")).length else 0
    let response_tokens : Nat := (pySplit llm_response_text).length
    let total_tokens := prompt_tokens + response_tokens
    let estimated_cost : ℚ := ((total_tokens : ℚ) / 1000) * GEMINI_FLASH_RATE
    let p := mkEvent s .llm_call (.llmCall
      { model_name := (model_name.splitOn "/").getLastD ""
      , prompt_length := if optStrTruthy prompt then (prompt.getD "").length else 0
      , response_length := llm_response_text.length
      , tokens_used := some total_tokens
      , estimated_cost := some estimated_cost
      , response_time_ms := some elapsed_ms
      , success := error.isNone
      , user_input := user_input
      , llm_response := some llm_response_text
      , error_message := error.map PyExc.str })
    (result, emit_event cfg p.1 p.2)

/-! ## Registry operation sequences

A client of events.py interleaves `start_session`, `end_session` and
`emit_event` calls; `RegOp` is one such call and `regRun` executes a
sequence from a state.  An emitted event is constructed at the call site
(as the wrappers do) with the given type tag and payload. -/

/-- One registry operation. -/
inductive RegOp
  | startOp (user_id : Option String)
  | endOp
  | emitOp (ty : EventType) (d : EventData)

/-- Execute one registry operation. -/
def regStep (cfg : TrackingConfig) (s : RegistryState) : RegOp → RegistryState
  | .startOp u => (start_session u s).2
  | .endOp => (end_session s).2
  | .emitOp ty d =>
    let p := mkEvent s ty d
    emit_event cfg p.1 p.2

/-- Execute a sequence of registry operations. -/
def regRun (cfg : TrackingConfig) (s : RegistryState) : List RegOp → RegistryState
  | [] => s
  | op :: ops => regRun cfg (regStep cfg s op) ops

/-- Well-formed use of the registry from state `s`: `end_session` is only
called while a session is active, and emitted events carry wrapper kinds,
never the session lifecycle tags. -/
def wfFrom (cfg : TrackingConfig) (s : RegistryState) : List RegOp → Prop
  | [] => True
  | op :: ops =>
    (match op with
     | .startOp _ => True
     | .endOp => s.current_session_id ≠ ""
     | .emitOp ty _ => ty ≠ .session_start ∧ ty ≠ .session_end) ∧
    wfFrom cfg (regStep cfg s op) ops

/-- Number of buffered events with the given type tag. -/
def countType (ty : EventType) (s : RegistryState) : Nat :=
  (s.session_events.filter fun e => e.event_type = ty).length

/-- Whether an event is a session-lifecycle or error event (the kinds the
renderer still shows at quiet verbosity). -/
def isSessionOrErrorData : EventData → Bool
  | .session _ => true
  | .errorEvent _ => true
  | _ => false

/-- The buffer/session invariant maintained by well-formed registry use:
either the buffer is empty with no active session, or it starts with a
SessionStart, holds exactly one SessionStart, and holds one SessionEnd
exactly when the session has been ended. -/
def regInv (s : RegistryState) : Prop :=
  (s.session_events = [] ∧ s.current_session_id = "") ∨
  (s.session_events.head?.map Event.event_type
     = some EventType.session_start ∧
   countType EventType.session_start s = 1 ∧
   countType EventType.session_end s
     = (if s.current_session_id = "" then 1 else 0))

/-! ## Basic lemmas about the embedding -/

/-- Generated identifiers are nonempty, hence Python-truthy. -/
@[simp]
theorem uuid_ne_empty (n : Nat) : uuid n ≠ "" := by
  intro h
  have h' : List.replicate (n + 1) 'u' = ([] : List Char) := congrArg String.data h
  simp at h'

/-- Distinct draws from the uuid supply give distinct identifiers. -/
theorem uuid_injective {m n : Nat} (h : uuid m = uuid n) : m = n := by
  have h' : List.replicate (m + 1) 'u' = List.replicate (n + 1) 'u' :=
    congrArg String.data h
  have := congrArg List.length h'
  simpa using this

/-- Lemma: `emit_event` always leaves the stamped event at the end of the buffer,
stamped with the session id that is active after the call. -/
theorem emit_event_getLast (cfg : TrackingConfig) (ev : Event) (s : RegistryState) :
    (emit_event cfg ev s).session_events.getLast?
      = some { ev with session_id := (emit_event cfg ev s).current_session_id } := by
  by_cases h : s.current_session_id = "" <;>
    simp [emit_event, h, List.getLast?_concat]

/-- Lemma: `emit_event` does not change the uuid counter. -/
theorem emit_event_counter (cfg : TrackingConfig) (ev : Event) (s : RegistryState) :
    (emit_event cfg ev s).counter
      = if s.current_session_id = "" then s.counter + 2 else s.counter := by
  by_cases h : s.current_session_id = "" <;>
    simp [emit_event, start_session, mkEvent, h]

/-! ## Claim theorems -/

/-- Claim C7: `end_session` appends a SessionEnd event stamped with the
identifier that was active (the empty sentinel when no session is active,
in which case the empty id is also returned), clears the active-session
marker while retaining the buffer, and returns the previously active
identifier, never raising an error. -/
theorem end_session_contract (s : RegistryState) :
    (end_session s).1 = s.current_session_id ∧
    (end_session s).2.current_session_id = "" ∧
    ∃ ev, (end_session s).2.session_events = s.session_events ++ [ev] ∧
      ev.event_type = EventType.session_end ∧
      ev.session_id = s.current_session_id :=
  ⟨rfl, rfl, _, rfl, rfl, rfl⟩

/-- Claim C3: `start_session` clears any buffered events, generates a fresh
nonempty session identifier which becomes the active one, and appends a
single SessionStart event; after `start_session(); emit(e1);
start_session()`, `get_events()` holds only the second session's events,
and the second identifier differs from the first. -/
theorem start_session_resets_buffer (cfg : TrackingConfig) (s : RegistryState)
    (u1 u2 : Option String) (e1 : Event) :
    ((start_session u1 s).2.session_events.map Event.event_type
       = [EventType.session_start]) ∧
    (start_session u1 s).2.current_session_id = (start_session u1 s).1 ∧
    (start_session u1 s).1 ≠ "" ∧
    ((start_session u2 (emit_event cfg e1 (start_session u1 s).2)).1
       ≠ (start_session u1 s).1) ∧
    (∀ e ∈ get_session_events
        (start_session u2 (emit_event cfg e1 (start_session u1 s).2)).2,
      e.session_id = (start_session u2 (emit_event cfg e1 (start_session u1 s).2)).1 ∧
      e.event_type = EventType.session_start) := by
  refine ⟨rfl, rfl, uuid_ne_empty _, ?_, ?_⟩
  · intro h
    have hc : (emit_event cfg e1 (start_session u1 s).2).counter = s.counter + 2 := by
      rw [emit_event_counter]
      have h1 : (start_session u1 s).2.current_session_id = uuid s.counter := rfl
      rw [h1, if_neg (uuid_ne_empty s.counter)]
      rfl
    have h2 : uuid (emit_event cfg e1 (start_session u1 s).2).counter
        = uuid s.counter := h
    rw [hc] at h2
    have := uuid_injective h2
    omega
  · intro e he
    simp only [start_session, get_session_events, mkEvent, List.nil_append,
      List.mem_singleton] at he
    subst he
    exact ⟨rfl, rfl⟩

/-- Claim C8: with tracking disabled, both wrappers invoke the wrapped
callable directly: the outcome is identical to an unwrapped call and the
registry state (buffer, session, output) is untouched. -/
theorem tracking_disabled_identity (cfg : TrackingConfig) (func_name : String)
    (func : List PyVal → List (String × PyVal) → Except PyExc PyVal)
    (args : List PyVal) (kwargs : List (String × PyVal)) (elapsed_ms : Nat)
    (g : Unit → Except PyExc LLMResponse) (model_obj : Option ModelHandle)
    (prompt user_input : Option String) (s : RegistryState)
    (h : is_tracking_enabled cfg = false) :
    track_function cfg func_name func args kwargs elapsed_ms s
      = (func args kwargs, s) ∧
    track_llm cfg g model_obj prompt user_input elapsed_ms s = (g (), s) := by
  constructor <;> simp [track_function, track_llm, h]

/-- Witness for C8 at a disabled configuration and concrete calls. -/
theorem tracking_disabled_identity_witness :
    track_function { mode := TrackingMode.disabled } "f"
        (fun _ _ => Except.ok (PyVal.int 7)) [] [] 3 initState
      = (Except.ok (PyVal.int 7), initState) ∧
    track_llm { mode := TrackingMode.disabled }
        (fun _ => Except.ok { text := "hi" }) none (some "p") none 3 initState
      = (Except.ok { text := "hi" }, initState) :=
  tracking_disabled_identity { mode := TrackingMode.disabled } "f"
    (fun _ _ => Except.ok (PyVal.int 7)) [] [] 3
    (fun _ => Except.ok { text := "hi" }) none (some "p") none initState rfl

/-- Claim C10: a successful wrapped call that returns a falsy value is
recorded with `return_value = None`; only truthy return values are recorded
as their repr string (`repr(return_value) if return_value else None`). -/
theorem falsy_return_value_recorded_none (cfg : TrackingConfig)
    (func_name : String)
    (func : List PyVal → List (String × PyVal) → Except PyExc PyVal)
    (args : List PyVal) (kwargs : List (String × PyVal)) (elapsed_ms : Nat)
    (s : RegistryState) (v : PyVal)
    (h : is_tracking_enabled cfg = true) (hv : func args kwargs = Except.ok v) :
    ∃ ev d,
      (track_function cfg func_name func args kwargs elapsed_ms
        s).2.session_events.getLast? = some ev ∧
      ev.data = EventData.functionCall d ∧
      d.return_value = (if pyTruthy v then some (pyRepr v) else none) ∧
      (pyTruthy v = false → d.return_value = none) := by
  simp only [track_function, h, hv, not_true_eq_false, Bool.false_eq_true,
    if_false]
  refine ⟨_, _, emit_event_getLast _ _ _, rfl, ?_, ?_⟩
  · rfl
  · intro hfalse
    simp [hfalse]

/-- Witness for C10: a call returning the falsy value 0 is recorded with
`return_value = none`. -/
theorem falsy_return_value_recorded_none_witness :
    ∃ ev d,
      (track_function tracking_config "f" (fun _ _ => Except.ok (PyVal.int 0))
        [] [] 0 initState).2.session_events.getLast? = some ev ∧
      ev.data = EventData.functionCall d ∧ d.return_value = none := by
  obtain ⟨ev, d, h1, h2, _, h4⟩ :=
    falsy_return_value_recorded_none tracking_config "f"
      (fun _ _ => Except.ok (PyVal.int 0)) [] [] 0 initState (PyVal.int 0)
      rfl rfl
  exact ⟨ev, d, h1, h2, h4 (by decide)⟩

/-- The pieces Python `s.split()` yields on the empty string. -/
theorem pySplit_empty : pySplit "" = [] := rfl

/-- Claim C5: the LLM wrapper computes `tokens_used` as the number of
whitespace-separated words of the prompt plus those of the response, and
`estimated_cost` as `(tokens_used / 1000)` times the fixed per-thousand-token
rate constant; in particular 10 prompt words and 5 response words give
`tokens_used = 15` and `estimated_cost = (15/1000) * rate`. -/
theorem track_llm_tokens_and_cost (cfg : TrackingConfig)
    (model_obj : Option ModelHandle) (p t : String)
    (user_input : Option String) (elapsed_ms : Nat) (s : RegistryState)
    (h : is_tracking_enabled cfg = true) :
    ∃ ev d,
      (track_llm cfg (fun _ => Except.ok { text := t }) model_obj (some p)
        user_input elapsed_ms s).2.session_events.getLast? = some ev ∧
      ev.data = EventData.llmCall d ∧
      d.tokens_used = some ((pySplit p).length + (pySplit t).length) ∧
      d.estimated_cost
        = some ((((pySplit p).length + (pySplit t).length : ℚ)) / 1000
            * GEMINI_FLASH_RATE) ∧
      ((pySplit p).length = 10 → (pySplit t).length = 5 →
        d.tokens_used = some 15 ∧
        d.estimated_cost = some (((15 : ℚ) / 1000) * GEMINI_FLASH_RATE)) := by
  have hp : (if optStrTruthy (some p) then (pySplit p).length else 0)
      = (pySplit p).length := by
    by_cases hp0 : p = ""
    · subst hp0; simp [optStrTruthy, pySplit_empty]
    · simp [optStrTruthy, hp0]
  simp only [track_llm, h, not_true_eq_false, Bool.false_eq_true, if_false]
  refine ⟨_, _, emit_event_getLast _ _ _, rfl, ?_, ?_, ?_⟩
  · simp [hp]
  · simp [hp]
  · intro h10 h5
    have htr : optStrTruthy (some p) = true := by
      rcases eq_or_ne p "" with hp0 | hp0
      · subst hp0; rw [pySplit_empty] at h10; simp at h10
      · simp [optStrTruthy, hp0]
    constructor
    · simp [htr, h10, h5]
    · simp [htr, h10, h5, GEMINI_FLASH_RATE]

/-- Witness for C5 at a concrete 10-word prompt and 5-word response under
the default (enabled) configuration. -/
theorem track_llm_tokens_and_cost_witness :
    ∃ ev d,
      (track_llm tracking_config (fun _ => Except.ok { text := "v w x y z" })
        none (some "a b c d e f g h i j") none 2
        initState).2.session_events.getLast? = some ev ∧
      ev.data = EventData.llmCall d ∧
      d.tokens_used = some 15 ∧
      d.estimated_cost = some (((15 : ℚ) / 1000) * GEMINI_FLASH_RATE) := by
  obtain ⟨ev, d, h1, h2, _, _, h5⟩ :=
    track_llm_tokens_and_cost tracking_config none "a b c d e f g h i j"
      "v w x y z" none 2 initState rfl
  obtain ⟨h6, h7⟩ := h5 (by decide) (by decide)
  exact ⟨ev, d, h1, h2, h6, h7⟩

/-- Claim C2 counterexample: wrapping a function that raises an exception
whose string form is empty (as `ValueError()` in Python) re-raises it but
records an empty `error_message`, not a non-empty one. -/
theorem track_function_raises_cex :
    (track_function tracking_config "f"
      (fun _ _ => Except.error { exc_type := "ValueError", msg := "" })
      [] [] 0 initState).1
        = Except.error { exc_type := "ValueError", msg := "" } ∧
    ∃ ev d,
      (track_function tracking_config "f"
        (fun _ _ => Except.error { exc_type := "ValueError", msg := "" })
        [] [] 0 initState).2.session_events.getLast? = some ev ∧
      ev.event_type = EventType.function_call ∧
      ev.data = EventData.functionCall d ∧
      d.success = false ∧
      d.error_message = some "" :=
  ⟨rfl, _, _, rfl, rfl, rfl, rfl, rfl⟩

/-- Claim C2 (amended): wrapping a function that raises re-raises the same
exception and emits exactly one FunctionCall event — besides at most an
implicit SessionStart — with `success = false` and `error_message` equal to
the string form of the exception (which is empty when the exception
stringifies to the empty string). -/
theorem track_function_raises_amended (cfg : TrackingConfig)
    (func_name : String)
    (func : List PyVal → List (String × PyVal) → Except PyExc PyVal)
    (args : List PyVal) (kwargs : List (String × PyVal)) (elapsed_ms : Nat)
    (s : RegistryState) (e : PyExc)
    (h : is_tracking_enabled cfg = true)
    (he : func args kwargs = Except.error e) :
    (track_function cfg func_name func args kwargs elapsed_ms s).1
      = Except.error e ∧
    countType EventType.function_call
        (track_function cfg func_name func args kwargs elapsed_ms s).2
      = (if s.current_session_id = "" then 1
         else countType EventType.function_call s + 1) ∧
    ∃ ev d,
      (track_function cfg func_name func args kwargs elapsed_ms
        s).2.session_events.getLast? = some ev ∧
      ev.event_type = EventType.function_call ∧
      ev.data = EventData.functionCall d ∧
      d.success = false ∧
      d.error_message = some (PyExc.str e) := by
  simp only [track_function, h, he, not_true_eq_false, Bool.false_eq_true,
    if_false]
  refine ⟨by trivial, ?_, _, _, emit_event_getLast _ _ _, rfl, rfl, rfl, rfl⟩
  by_cases hc : s.current_session_id = ""
  · simp [emit_event, mkEvent, start_session, countType, hc]
  · simp [emit_event, mkEvent, countType, hc]

/-- Witness for the amended C2 at a concrete raising call. -/
theorem track_function_raises_amended_witness :
    (track_function tracking_config "g"
      (fun _ _ => Except.error { exc_type := "RuntimeError", msg := "boom" })
      [] [] 1 initState).1
        = Except.error { exc_type := "RuntimeError", msg := "boom" } ∧
    countType EventType.function_call
        (track_function tracking_config "g"
          (fun _ _ => Except.error { exc_type := "RuntimeError", msg := "boom" })
          [] [] 1 initState).2
      = (if initState.current_session_id = "" then 1
         else countType EventType.function_call initState + 1) ∧
    ∃ ev d,
      (track_function tracking_config "g"
        (fun _ _ => Except.error { exc_type := "RuntimeError", msg := "boom" })
        [] [] 1 initState).2.session_events.getLast? = some ev ∧
      ev.event_type = EventType.function_call ∧
      ev.data = EventData.functionCall d ∧
      d.success = false ∧
      d.error_message = some (PyExc.str { exc_type := "RuntimeError", msg := "boom" }) :=
  track_function_raises_amended tracking_config "g"
    (fun _ _ => Except.error { exc_type := "RuntimeError", msg := "boom" })
    [] [] 1 initState { exc_type := "RuntimeError", msg := "boom" } rfl rfl

/-- Claim C9: at quiet verbosity (CLI mode) the renderer produces no output
for FunctionCall events — in particular successful ones — while an Error
event always produces output at any verbosity in CLI mode; any event
rendered at quiet verbosity is a Session or Error event. -/
theorem quiet_verbosity_rendering (cfg cfg2 : TrackingConfig)
    (h1 : cfg.mode = TrackingMode.cli)
    (h2 : cfg.display_level = DisplayLevel.quiet)
    (h3 : cfg2.mode = TrackingMode.cli) :
    (∀ ev d, ev.data = EventData.functionCall d → display_event cfg ev = []) ∧
    (∀ ev d, ev.data = EventData.errorEvent d → display_event cfg2 ev ≠ []) ∧
    (∀ ev, display_event cfg ev ≠ [] → isSessionOrErrorData ev.data = true) := by
  have henabled : is_tracking_enabled cfg = true := by
    simp [is_tracking_enabled, h1]
  have henabled2 : is_tracking_enabled cfg2 = true := by
    simp [is_tracking_enabled, h3]
  refine ⟨?_, ?_, ?_⟩
  · intro ev d hd
    simp [display_event, henabled, h1, hd, display_function_event, h2]
  · intro ev d hd
    have hmode : ¬(¬ is_tracking_enabled cfg2 = true
        ∨ cfg2.mode ≠ TrackingMode.cli) := by
      simp [henabled2, h3]
    simp only [display_event, hd]
    rw [if_neg hmode]
    simp only [display_error_event]
    split <;> simp
  · intro ev
    cases hd : ev.data <;>
      simp [display_event, henabled, h1, hd, isSessionOrErrorData,
        display_function_event, display_llm_event, display_api_event, h2]

/-- Witness for C9: a successful FunctionCall renders nothing at quiet
verbosity, while an Error event renders a line at the default (normal)
verbosity. -/
theorem quiet_verbosity_rendering_witness :
    display_event { tracking_config with display_level := DisplayLevel.quiet }
        { event_id := "e1", session_id := "s1", timestamp := 0,
          event_type := EventType.function_call,
          data := EventData.functionCall { function_name := "f" } } = [] ∧
    display_event tracking_config
        { event_id := "e2", session_id := "s1", timestamp := 0,
          event_type := EventType.error,
          data := EventData.errorEvent { error_type := "ValueError",
                                         error_message := "bad" } } ≠ [] := by
  obtain ⟨ha, hb, _⟩ :=
    quiet_verbosity_rendering
      { tracking_config with display_level := DisplayLevel.quiet }
      tracking_config rfl rfl rfl
  exact ⟨ha _ _ rfl, hb _ _ rfl⟩

/-- Printing a nonempty list of lines through a print operation that always
fails yields that failure. -/
theorem forM_error {pr : String → Except PrintFailure Unit}
    {err : PrintFailure} (hpr : ∀ line, pr line = Except.error err)
    (l : List String) (hl : l ≠ []) : l.forM pr = Except.error err := by
  cases l with
  | nil => exact absurd rfl hl
  | cons a t =>
    show (pr a >>= fun _ => t.forM pr) = Except.error err
    rw [hpr a]
    rfl

/-- Claim C1 counterexample: with a failing console print (e.g. a broken
pipe), `emit` of an Error event under the default configuration returns the
print failure to its caller — the source has no exception guard around the
display call, so emit can fail. -/
theorem emit_never_fails_cex :
    (emit_event_fallible tracking_config
      (fun _ => Except.error { msg := "BrokenPipeError" })
      { event_id := "e1", session_id := "", timestamp := 0,
        event_type := EventType.error,
        data := EventData.errorEvent { error_type := "RuntimeError",
                                       error_message := "boom" } }
      initState).2 = Except.error { msg := "BrokenPipeError" } := rfl

/-- Claim C1 (amended): `emit` with no active session first performs an
implicit `start_session()`, stamps the event with the active session id and
appends it to the buffer, and forwards it to the renderer — but an error
raised while printing the rendered output propagates to the caller of
`emit` unchanged. -/
theorem emit_event_amended (cfg : TrackingConfig)
    (pr : String → Except PrintFailure Unit) (ev : Event) (s : RegistryState)
    (err : PrintFailure) (hpr : ∀ line, pr line = Except.error err) :
    (emit_event_fallible cfg pr ev s).1.current_session_id ≠ "" ∧
    (emit_event_fallible cfg pr ev s).1.session_events.getLast?
      = some { ev with session_id :=
          (emit_event_fallible cfg pr ev s).1.current_session_id } ∧
    (s.current_session_id ≠ "" →
      (emit_event_fallible cfg pr ev s).1.current_session_id
        = s.current_session_id ∧
      (emit_event_fallible cfg pr ev s).1.session_events
        = s.session_events ++ [{ ev with session_id := s.current_session_id }]) ∧
    (s.current_session_id = "" →
      (emit_event_fallible cfg pr ev s).1.session_events.map Event.event_type
        = [EventType.session_start, ev.event_type]) ∧
    (display_event cfg { ev with session_id :=
        (emit_event_fallible cfg pr ev s).1.current_session_id } ≠ [] →
      (emit_event_fallible cfg pr ev s).2 = Except.error err) := by
  by_cases hc : s.current_session_id = ""
  · refine ⟨?_, ?_, ?_, ?_, ?_⟩
    · simp [emit_event_fallible, hc, start_session, mkEvent]
    · simp [emit_event_fallible, hc, List.getLast?_concat]
    · intro h; exact absurd hc h
    · intro _
      simp [emit_event_fallible, hc, start_session, mkEvent]
    · intro hne
      have : (emit_event_fallible cfg pr ev s).2
          = (display_event cfg { ev with session_id :=
              (emit_event_fallible cfg pr ev s).1.current_session_id }).forM pr := by
        simp [emit_event_fallible, hc]
      rw [this]
      exact forM_error hpr _ hne
  · refine ⟨?_, ?_, ?_, ?_, ?_⟩
    · simp [emit_event_fallible, hc]
    · simp [emit_event_fallible, hc, List.getLast?_concat]
    · intro _
      exact ⟨by simp [emit_event_fallible, hc], by simp [emit_event_fallible, hc]⟩
    · intro h; exact absurd h hc
    · intro hne
      have : (emit_event_fallible cfg pr ev s).2
          = (display_event cfg { ev with session_id :=
              (emit_event_fallible cfg pr ev s).1.current_session_id }).forM pr := by
        simp [emit_event_fallible, hc]
      rw [this]
      exact forM_error hpr _ hne

/-- Witness for the amended C1 at a concrete event, state and failing
print operation. -/
theorem emit_event_amended_witness :
    (emit_event_fallible tracking_config
        (fun _ => Except.error { msg := "OSError" })
        { event_id := "e3", session_id := "", timestamp := 0,
          event_type := EventType.function_call,
          data := EventData.functionCall { function_name := "f" } }
        initState).1.current_session_id ≠ "" ∧
    (emit_event_fallible tracking_config
        (fun _ => Except.error { msg := "OSError" })
        { event_id := "e3", session_id := "", timestamp := 0,
          event_type := EventType.function_call,
          data := EventData.functionCall { function_name := "f" } }
        initState).1.session_events.map Event.event_type
      = [EventType.session_start, EventType.function_call] ∧
    (emit_event_fallible tracking_config
        (fun _ => Except.error { msg := "OSError" })
        { event_id := "e3", session_id := "", timestamp := 0,
          event_type := EventType.function_call,
          data := EventData.functionCall { function_name := "f" } }
        initState).2 = Except.error { msg := "OSError" } := by
  obtain ⟨h1, _, _, h4, h5⟩ :=
    emit_event_amended tracking_config
      (fun _ => Except.error { msg := "OSError" })
      { event_id := "e3", session_id := "", timestamp := 0,
        event_type := EventType.function_call,
        data := EventData.functionCall { function_name := "f" } }
      initState { msg := "OSError" } (fun _ => rfl)
  exact ⟨h1, h4 rfl, h5 (by decide)⟩

/-- Claim C6: `get_summary` counts each event kind separately — a session
with one successful and one failed FunctionCall yields
`function_calls_count = 2` while `errors_count` stays 0 (failed
FunctionCalls are not Error-kind events); `total_estimated_cost` sums
`estimated_cost` over LLMCall events; and the empty buffer yields the
empty summary rather than failing. -/
theorem get_session_summary_counts (cfg : TrackingConfig) (c1 c2 : ℚ) :
    get_session_summary initState = none ∧
    (∃ sm, get_session_summary (regRun cfg initState
        [RegOp.startOp none,
         RegOp.emitOp EventType.function_call
           (EventData.functionCall { success := true }),
         RegOp.emitOp EventType.function_call
           (EventData.functionCall { success := false,
                                     error_message := some "boom" }),
         RegOp.endOp]) = some sm ∧
      sm.function_calls_count = 2 ∧ sm.errors_count = 0 ∧
      sm.llm_calls_count = 0 ∧ sm.api_calls_count = 0) ∧
    (∃ sm, get_session_summary (regRun cfg initState
        [RegOp.startOp none,
         RegOp.emitOp EventType.llm_call
           (EventData.llmCall { estimated_cost := some c1 }),
         RegOp.emitOp EventType.llm_call
           (EventData.llmCall { estimated_cost := some c2 })]) = some sm ∧
      sm.total_estimated_cost = c1 + c2) := by
  refine ⟨rfl, ⟨_, rfl, rfl, rfl, rfl, rfl⟩, ⟨_, rfl, ?_⟩⟩
  show c1 + (c2 + 0) = c1 + c2
  ring

/-- Lemma: `start_session` establishes the invariant from any state. -/
theorem regInv_start (u : Option String) (s : RegistryState) :
    regInv (start_session u s).2 := by
  refine Or.inr ⟨rfl, rfl, ?_⟩
  rw [if_neg (show (start_session u s).2.current_session_id ≠ ""
      from uuid_ne_empty s.counter)]
  rfl

/-- Lemma: `end_session` preserves the invariant when a session is active. -/
theorem regInv_end (s : RegistryState) (hw : s.current_session_id ≠ "")
    (hs : regInv s) : regInv (end_session s).2 := by
  rcases hs with ⟨-, hc⟩ | ⟨hh, hstart, hend⟩
  · exact absurd hc hw
  rw [if_neg hw] at hend
  cases hl : s.session_events with
  | nil => rw [hl] at hh; simp at hh
  | cons a t =>
    rw [hl] at hh
    refine Or.inr ⟨?_, ?_, ?_⟩
    · simp only [end_session, mkEvent, hl]
      simpa using hh
    · simp only [countType, end_session, mkEvent, List.filter_append]
        at hstart ⊢
      simpa using hstart
    · simp only [countType, end_session, mkEvent, List.filter_append]
        at hend ⊢
      simp [hend]

/-- Lemma: `emit_event` of an event built with a wrapper kind preserves the
invariant. -/
theorem regInv_emit (cfg : TrackingConfig) (ty : EventType) (d : EventData)
    (s : RegistryState) (h1 : ty ≠ EventType.session_start)
    (h2 : ty ≠ EventType.session_end) (hs : regInv s) :
    regInv (emit_event cfg (mkEvent s ty d).1 (mkEvent s ty d).2) := by
  by_cases hc : s.current_session_id = ""
  · refine Or.inr ⟨?_, ?_, ?_⟩
    · simp [emit_event, mkEvent, start_session, hc]
    · simp [emit_event, mkEvent, start_session, hc, countType, h1]
    · simp [emit_event, mkEvent, start_session, hc, countType, h1, h2,
        uuid_ne_empty]
  · rcases hs with ⟨-, hc'⟩ | ⟨hh, hstart, hend⟩
    · exact absurd hc' hc
    rw [if_neg hc] at hend
    cases hl : s.session_events with
    | nil => rw [hl] at hh; simp at hh
    | cons a t =>
      rw [hl] at hh
      refine Or.inr ⟨?_, ?_, ?_⟩
      · simp only [emit_event, mkEvent, hc, if_neg hc]
        simpa [hc, hl] using hh
      · simp only [countType, emit_event, mkEvent, hc] at hstart ⊢
        simpa [hc, countType, h1] using hstart
      · simp only [countType, emit_event, mkEvent, hc] at hend ⊢
        simp [hc, countType, h2, hend]

/-- One well-formed registry step preserves the invariant. -/
theorem regInv_step (cfg : TrackingConfig) (s : RegistryState) (op : RegOp)
    (hw : match op with
      | .startOp _ => True
      | .endOp => s.current_session_id ≠ ""
      | .emitOp ty _ => ty ≠ EventType.session_start ∧
          ty ≠ EventType.session_end)
    (hs : regInv s) : regInv (regStep cfg s op) := by
  cases op with
  | startOp u => exact regInv_start u s
  | endOp => exact regInv_end s hw hs
  | emitOp ty d => exact regInv_emit cfg ty d s hw.1 hw.2 hs

/-- A well-formed run preserves the invariant. -/
theorem regInv_run (cfg : TrackingConfig) (ops : List RegOp)
    (s : RegistryState) (hs : regInv s) (hw : wfFrom cfg s ops) :
    regInv (regRun cfg s ops) := by
  induction ops generalizing s with
  | nil => exact hs
  | cons op ops ih =>
    exact ih (regStep cfg s op) (regInv_step cfg s op hw.1 hs) hw.2

/-- Claim C4 counterexample: with `end_session` called twice the ended
session's buffer holds two SessionEnd events, and emitting a
SessionStart-tagged event into an active session yields two SessionStart
events — so without restricting the operations the invariant fails. -/
theorem session_buffer_invariant_cex :
    (countType EventType.session_end
        (regRun tracking_config initState
          [RegOp.startOp none, RegOp.endOp, RegOp.endOp]) = 2 ∧
     (regRun tracking_config initState
        [RegOp.startOp none, RegOp.endOp, RegOp.endOp]).current_session_id
       = "" ∧
     (regRun tracking_config initState
        [RegOp.startOp none, RegOp.endOp, RegOp.endOp]).session_events ≠ []) ∧
    countType EventType.session_start
        (regRun tracking_config initState
          [RegOp.startOp none,
           RegOp.emitOp EventType.session_start (EventData.session {})]) = 2 := by
  decide

/-- Claim C4 (amended): for every sequence of registry operations in which
`end_session` is only invoked while a session is active and emitted events
carry wrapper kinds (not the session lifecycle tags), the buffer always
begins with a SessionStart and holds exactly one, and once the session has
been ended it holds exactly one SessionEnd; emitting with no active
session implicitly opens a new session first. -/
theorem session_buffer_invariant (cfg : TrackingConfig) (ops : List RegOp)
    (hw : wfFrom cfg initState ops) :
    ((regRun cfg initState ops).session_events ≠ [] →
      ((regRun cfg initState ops).session_events.head?).map Event.event_type
        = some EventType.session_start ∧
      countType EventType.session_start (regRun cfg initState ops) = 1) ∧
    ((regRun cfg initState ops).session_events ≠ [] →
      (regRun cfg initState ops).current_session_id = "" →
      countType EventType.session_end (regRun cfg initState ops) = 1) := by
  have hinv : regInv (regRun cfg initState ops) :=
    regInv_run cfg ops initState (Or.inl ⟨rfl, rfl⟩) hw
  rcases hinv with ⟨hempty, -⟩ | ⟨hh, hstart, hend⟩
  · exact ⟨fun hne => absurd hempty hne, fun hne _ => absurd hempty hne⟩
  · exact ⟨fun _ => ⟨hh, hstart⟩, fun _ hc => by rw [hend, if_pos hc]⟩

/-- Witness for the amended C4 on a well-formed run: one session with one
emitted FunctionCall event, then ended. -/
theorem session_buffer_invariant_witness :
    ((regRun tracking_config initState
        [RegOp.startOp none,
         RegOp.emitOp EventType.function_call (EventData.functionCall {}),
         RegOp.endOp]).session_events.head?).map Event.event_type
      = some EventType.session_start ∧
    countType EventType.session_start
      (regRun tracking_config initState
        [RegOp.startOp none,
         RegOp.emitOp EventType.function_call (EventData.functionCall {}),
         RegOp.endOp]) = 1 ∧
    countType EventType.session_end
      (regRun tracking_config initState
        [RegOp.startOp none,
         RegOp.emitOp EventType.function_call (EventData.functionCall {}),
         RegOp.endOp]) = 1 := by
  obtain ⟨ha, hb⟩ :=
    session_buffer_invariant tracking_config
      [RegOp.startOp none,
       RegOp.emitOp EventType.function_call (EventData.functionCall {}),
       RegOp.endOp]
      (by refine ⟨trivial, ⟨?_, ?_⟩, ?_, trivial⟩ <;> decide)
  obtain ⟨h1, h2⟩ := ha (by decide)
  exact ⟨h1, h2, hb (by decide) (by decide)⟩

end Tracking
